import Mathlib

/-!
Shallow embedding of the OIT calculator core
(`src/_ts/oit_calculator/core/calculator.ts`, together with the constants from
`constants.ts` and the numeric helpers from `utils.ts` that the calculator uses).

Modelling conventions:
* decimal.js arbitrary-precision values are modelled as exact rationals (ℚ);
  the design notes of the repository prescribe "a fixed-precision decimal or
  rational type" for any reimplementation of the core.
* TypeScript `null` / `undefined` results are modelled with `Option`.
* JavaScript `Number.prototype.toFixed` display rounding (used by
  `formatAmount`) is modelled as exact round-half-up to the given number of
  decimal places.
* `Array.prototype.sort` with a comparator is modelled as a stable merge sort
  by the same comparator (ES2019 requires sort stability).
-/

namespace OIT

/-- FoodType enum from types.ts. -/
inductive FoodType where
  | SOLID
  | LIQUID
  | CAPSULE
  deriving DecidableEq, Repr

/-- Method enum from types.ts. -/
inductive Method where
  | DILUTE
  | DIRECT
  | CAPSULE
  deriving DecidableEq, Repr

/-- FoodAStrategy enum from types.ts. -/
inductive FoodAStrategy where
  | DILUTE_INITIAL
  | DILUTE_ALL
  | DILUTE_NONE
  deriving DecidableEq, Repr

/-- DosingStrategy enum from types.ts. -/
inductive DosingStrategy where
  | STANDARD
  | SLOW
  deriving DecidableEq, Repr

/-- Unit type alias from types.ts: "g" | "ml" | "capsule". -/
inductive Unit where
  | g
  | ml
  | capsule
  deriving DecidableEq, Repr

/-- The "A" | "B" food label used in Step. -/
inductive FoodLabel where
  | A
  | B
  deriving DecidableEq, Repr

/-- Food interface from types.ts (name, type, gramsInServing, servingSize). -/
structure Food where
  name : String
  type : FoodType
  gramsInServing : ℚ
  servingSize : ℚ
  deriving DecidableEq

/-- Food.getMgPerUnit: mg of protein per gram or ml of food; every food object
in the repository implements it as gramsInServing × 1000 / servingSize. -/
def Food.getMgPerUnit (f : Food) : ℚ :=
  f.gramsInServing * 1000 / f.servingSize

/-- ProtocolConfig interface from types.ts. -/
structure ProtocolConfig where
  minMeasurableMass : ℚ
  minMeasurableVolume : ℚ
  minServingsForMix : ℚ
  PROTEIN_TOLERANCE : ℚ
  DEFAULT_FOOD_A_DILUTION_THRESHOLD : ℚ
  DEFAULT_FOOD_B_THRESHOLD : ℚ
  MAX_SOLID_CONCENTRATION : ℚ
  MAX_MIX_WATER : ℚ
  MAX_DAILY_AMOUNT : ℚ
  SOLID_MIX_CANDIDATES : List ℚ
  LIQUID_MIX_CANDIDATES : List ℚ
  DAILY_AMOUNT_CANDIDATES : List ℚ

/-- Candidate interface from types.ts. -/
structure Candidate where
  mixFoodAmount : ℚ
  mixWaterAmount : ℚ
  dailyAmount : ℚ
  mixTotalVolume : ℚ
  servings : ℚ
  deriving DecidableEq, Repr

/-- Step interface from types.ts; the optional mix fields are Options. -/
structure Step where
  stepIndex : ℕ
  targetMg : ℚ
  method : Method
  dailyAmount : ℚ
  dailyAmountUnit : Unit
  mixFoodAmount : Option ℚ
  mixWaterAmount : Option ℚ
  servings : Option ℚ
  food : FoodLabel
  deriving DecidableEq, Repr

/-- Protocol interface from types.ts (the fields the calculator populates). -/
structure Protocol where
  dosingStrategy : DosingStrategy
  foodA : Food
  foodAStrategy : FoodAStrategy
  diThreshold : ℚ
  foodB : Option Food
  foodBThreshold : Option (Unit × ℚ)
  steps : List Step
  config : ProtocolConfig

/-- SOLID_RESOLUTION from constants.ts (decimals displayed for grams). -/
def SOLID_RESOLUTION : ℕ := 2

/-- LIQUID_RESOLUTION from constants.ts (decimals displayed for ml). -/
def LIQUID_RESOLUTION : ℕ := 1

/-- DILUTION_WATER_STEP_RESOLUTION from constants.ts: 0.5 ml. -/
def DILUTION_WATER_STEP_RESOLUTION : ℚ := 0.5

/-- DOSING_STRATEGIES from constants.ts: target protein lists per strategy. -/
def DOSING_STRATEGIES : DosingStrategy → List ℚ
  | .STANDARD => [1, 2.5, 5, 10, 20, 40, 80, 120, 160, 240, 300]
  | .SLOW => [0.5, 1, 1.5, 2.5, 5, 10, 20, 30, 40, 60, 80, 100, 120, 140, 160,
      190, 220, 260, 300]

/-- DEFAULT_CONFIG from constants.ts. -/
def DEFAULT_CONFIG : ProtocolConfig where
  minMeasurableMass := 0.2
  minMeasurableVolume := 0.2
  minServingsForMix := 3
  PROTEIN_TOLERANCE := 0.05
  DEFAULT_FOOD_A_DILUTION_THRESHOLD := 0.2
  DEFAULT_FOOD_B_THRESHOLD := 0.2
  MAX_SOLID_CONCENTRATION := 0.05
  MAX_MIX_WATER := 500
  MAX_DAILY_AMOUNT := 250
  SOLID_MIX_CANDIDATES := [0.2, 0.25, 0.3, 0.35, 0.4, 0.45, 0.5, 1, 1.5, 2,
    2.5, 3, 3.5, 4, 4.5, 5, 6, 7, 8, 9, 10, 12, 14, 16, 18, 20, 25, 30]
  LIQUID_MIX_CANDIDATES := [0.2, 0.3, 0.4, 0.5, 0.6, 0.7, 0.8, 0.9, 1, 1.5, 2,
    2.5, 3, 3.5, 4, 4.5, 5, 6, 7, 8, 9, 10, 12, 14, 16, 18, 20, 25, 30]
  DAILY_AMOUNT_CANDIDATES := [0.5, 1, 1.5, 2, 2.5, 3, 3.5, 4, 4.5, 5, 6, 7, 8,
    9, 10, 11, 12, 14, 16, 18, 20]

/-- findPercentDifference from utils.ts: |test / base − 1|. -/
def findPercentDifference (test base : ℚ) : ℚ :=
  |test / base - 1|

/-- Round-half-up to a fixed number of decimal places; models the numeric
value produced by toFixed followed by new Decimal in utils.ts. -/
def roundDp (decimals : ℕ) (x : ℚ) : ℚ :=
  (⌊x * 10 ^ decimals + 1 / 2⌋ : ℚ) / 10 ^ decimals

/-- formatAmount from utils.ts, as the numeric value of the formatted string:
grams use SOLID_RESOLUTION decimals; ml is left alone when whole and otherwise
uses LIQUID_RESOLUTION decimals. -/
def formatAmount (x : ℚ) (unit : Unit) : ℚ :=
  match unit with
  | .g => roundDp SOLID_RESOLUTION x
  | _ => if x = (⌊x⌋ : ℚ) then x else roundDp LIQUID_RESOLUTION x

/-- Floor snap of a water volume to DILUTION_WATER_STEP_RESOLUTION increments
(calculator.ts computes steps = w / resolution, then floor × resolution). -/
def floorSnap (w : ℚ) : ℚ :=
  (⌊w / DILUTION_WATER_STEP_RESOLUTION⌋ : ℚ) * DILUTION_WATER_STEP_RESOLUTION

/-- Ceil snap of a water volume to DILUTION_WATER_STEP_RESOLUTION increments. -/
def ceilSnap (w : ℚ) : ℚ :=
  (⌈w / DILUTION_WATER_STEP_RESOLUTION⌉ : ℚ) * DILUTION_WATER_STEP_RESOLUTION

/-- checkCandidateValidity from calculator.ts: validate one mix recipe against
all protocol constraints, returning the Candidate when every check passes. -/
def checkCandidateValidity (food : Food) (P totalMixProtein mixFood dailyAmount
    waterVal : ℚ) (config : ProtocolConfig) : Option Candidate :=
  let mixTotalVolume :=
    if food.type = FoodType.SOLID then waterVal else mixFood + waterVal
  let servings := mixTotalVolume / dailyAmount
  if servings < config.minServingsForMix then none
  else if (if food.type = FoodType.SOLID then mixFood < config.minMeasurableMass
      else mixFood < config.minMeasurableVolume) then none
  else if dailyAmount < config.minMeasurableVolume then none
  else if config.MAX_MIX_WATER < waterVal then none
  else if waterVal < config.minMeasurableVolume then none
  else
    let actualProteinPerMl := totalMixProtein / mixTotalVolume
    let actualProteinDelivered := actualProteinPerMl * dailyAmount
    if config.PROTEIN_TOLERANCE < |actualProteinDelivered / P - 1| then none
    else some
      { mixFoodAmount := mixFood
        mixWaterAmount := waterVal
        dailyAmount := dailyAmount
        mixTotalVolume := mixTotalVolume
        servings := servings }

/-- The ideal (exact) water volume computed in the loop body of
findDilutionCandidates for one (mixFood, dailyAmount) pair. -/
def idealWaterFor (P : ℚ) (food : Food) (mixFood dailyAmount : ℚ) : ℚ :=
  let totalMixProtein := mixFood * food.getMgPerUnit
  let idealServings := totalMixProtein / P
  if food.type = FoodType.SOLID then dailyAmount * idealServings
  else dailyAmount * idealServings - mixFood

/-- The snapped water volumes tested in the loop body of
findDilutionCandidates: the floor snap, plus the ceil snap when distinct. -/
def roundedOptionsToCheck (idealWater : ℚ) : List ℚ :=
  if ceilSnap idealWater = floorSnap idealWater then [floorSnap idealWater]
  else [floorSnap idealWater, ceilSnap idealWater]

/-- Loop body of findDilutionCandidates for one (mixFood, dailyAmount) pair:
skip the pair when the ideal water is negative; otherwise test the snapped
water volumes, and fall back to the unsnapped ideal value only when no snapped
option yields a valid candidate. -/
def pairCandidates (P : ℚ) (food : Food) (config : ProtocolConfig)
    (mixFood dailyAmount : ℚ) : List Candidate :=
  let totalMixProtein := mixFood * food.getMgPerUnit
  let idealWater := idealWaterFor P food mixFood dailyAmount
  if idealWater < 0 then []
  else
    let snapCandidates := (roundedOptionsToCheck idealWater).filterMap
      (fun testWater =>
        checkCandidateValidity food P totalMixProtein mixFood dailyAmount
          testWater config)
    if snapCandidates.isEmpty then
      (checkCandidateValidity food P totalMixProtein mixFood dailyAmount
        idealWater config).toList
    else snapCandidates

/-- Decimal.comparedTo on two rationals: −1, 0 or 1. -/
def cmpQ (x y : ℚ) : Int :=
  if x < y then -1 else if y < x then 1 else 0

/-- The tie-breaking part of the sort comparator in findDilutionCandidates:
mixFoodAmount, then dailyAmount, then mixTotalVolume, then mixWaterAmount. -/
def lexCmp (a b : Candidate) : Int :=
  if cmpQ a.mixFoodAmount b.mixFoodAmount ≠ 0 then
    cmpQ a.mixFoodAmount b.mixFoodAmount
  else if cmpQ a.dailyAmount b.dailyAmount ≠ 0 then
    cmpQ a.dailyAmount b.dailyAmount
  else if cmpQ a.mixTotalVolume b.mixTotalVolume ≠ 0 then
    cmpQ a.mixTotalVolume b.mixTotalVolume
  else cmpQ a.mixWaterAmount b.mixWaterAmount

/-- The sort comparator of findDilutionCandidates: for SOLID foods (where
minDailyForLowConcentration is non-null) candidates meeting the low
concentration constraint come first, then the lexicographic tie-break. -/
def candidateCmp (food : Food) (minDaily : Option ℚ) (a b : Candidate) : Int :=
  match minDaily with
  | some m =>
    if food.type = FoodType.SOLID then
      if m ≤ a.dailyAmount ∧ ¬ m ≤ b.dailyAmount then -1
      else if ¬ m ≤ a.dailyAmount ∧ m ≤ b.dailyAmount then 1
      else lexCmp a b
    else lexCmp a b
  | none => lexCmp a b

/-- The boolean "comes no later than" relation induced by candidateCmp, used
to model the JavaScript in-place comparator sort as a stable merge sort. -/
def candLe (food : Food) (minDaily : Option ℚ) (a b : Candidate) : Bool :=
  decide (candidateCmp food minDaily a b ≤ 0)

/-- minDailyForLowConcentration from calculator.ts: for SOLID foods, the
minimum daily amount achieving the low w/v concentration preference. -/
def minDailyForLowConcentration (P : ℚ) (food : Food)
    (config : ProtocolConfig) : Option ℚ :=
  if food.type = FoodType.SOLID then
    some (P / (config.MAX_SOLID_CONCENTRATION * food.getMgPerUnit))
  else none

/-- findDilutionCandidates from calculator.ts: enumerate the cross product of
mix amounts and daily amounts, collect valid candidates per pair, and sort. -/
def findDilutionCandidates (P : ℚ) (food : Food) (config : ProtocolConfig) :
    List Candidate :=
  let mixCandidates :=
    if food.type = FoodType.SOLID then config.SOLID_MIX_CANDIDATES
    else config.LIQUID_MIX_CANDIDATES
  let candidates := mixCandidates.flatMap (fun mixFood =>
    config.DAILY_AMOUNT_CANDIDATES.flatMap (fun dailyAmount =>
      pairCandidates P food config mixFood dailyAmount))
  candidates.mergeSort (candLe food (minDailyForLowConcentration P food config))

/-- generateStepForTarget from calculator.ts. -/
def generateStepForTarget (targetMg : ℚ) (stepIndex : ℕ) (food : Food)
    (foodAStrategy : FoodAStrategy) (diThreshold : ℚ)
    (config : ProtocolConfig) : Option Step :=
  let P := targetMg
  let neatMass := P / food.getMgPerUnit
  let unit : Unit := if food.type = FoodType.SOLID then .g else .ml
  let needsDilution : Bool :=
    match foodAStrategy with
    | .DILUTE_INITIAL => decide (neatMass < diThreshold)
    | .DILUTE_ALL => true
    | .DILUTE_NONE => false
  if needsDilution then
    match findDilutionCandidates P food config with
    | [] => none
    | best :: _ =>
      some
        { stepIndex := stepIndex
          targetMg := P
          method := .DILUTE
          dailyAmount := best.dailyAmount
          dailyAmountUnit := .ml
          mixFoodAmount := some best.mixFoodAmount
          mixWaterAmount := some best.mixWaterAmount
          servings := some best.servings
          food := .A }
  else
    some
      { stepIndex := stepIndex
        targetMg := P
        method := .DIRECT
        dailyAmount := neatMass
        dailyAmountUnit := unit
        mixFoodAmount := none
        mixWaterAmount := none
        servings := none
        food := .A }

/-- The loop of generateDefaultProtocol: one step per target, falling back to
a DIRECT step with the neat mass when generateStepForTarget returns null.
The counter i is the 0-based loop index. -/
def defaultProtocolSteps (food : Food) (config : ProtocolConfig) (unit : Unit)
    (diThreshold : ℚ) : List ℚ → ℕ → List Step
  | [], _ => []
  | t :: ts, i =>
    (match generateStepForTarget t (i + 1) food .DILUTE_INITIAL diThreshold
        config with
     | some step => step
     | none =>
       { stepIndex := i + 1
         targetMg := t
         method := .DIRECT
         dailyAmount := t / food.getMgPerUnit
         dailyAmountUnit := unit
         mixFoodAmount := none
         mixWaterAmount := none
         servings := none
         food := .A })
    :: defaultProtocolSteps food config unit diThreshold ts (i + 1)

/-- generateDefaultProtocol from calculator.ts. -/
def generateDefaultProtocol (food : Food) (config : ProtocolConfig) :
    Protocol :=
  let dosingStrategy := DosingStrategy.STANDARD
  let foodAStrategy := FoodAStrategy.DILUTE_INITIAL
  let unit : Unit := if food.type = FoodType.SOLID then .g else .ml
  let diThreshold := config.DEFAULT_FOOD_A_DILUTION_THRESHOLD
  let targetProteins := DOSING_STRATEGIES dosingStrategy
  { dosingStrategy := dosingStrategy
    foodA := food
    foodAStrategy := foodAStrategy
    diThreshold := diThreshold
    foodB := none
    foodBThreshold := none
    steps := defaultProtocolSteps food config unit diThreshold targetProteins 0
    config := config }

/-- calculateDilutionActualProtein from calculator.ts. -/
def calculateDilutionActualProtein (food : Food)
    (mixAmount mixTotalVolume dailyAmount : ℚ) : Option ℚ :=
  if mixTotalVolume = 0 then none
  else some (mixAmount * food.getMgPerUnit * (dailyAmount / mixTotalVolume))

/-- The mix total volume findRoundedMixWaterAmount derives for one tested
snapped water amount: the water itself for SOLID, additive for LIQUID. -/
def snapMixTotalVolume (food : Food) (roundedMixAmount w : ℚ) : ℚ :=
  if food.type = FoodType.SOLID then w else w + roundedMixAmount

/-- The relative protein error findRoundedMixWaterAmount computes for one
tested snapped water amount, via calculateDilutionActualProtein and
findPercentDifference. The getD 0 models the non-null assertion in the
source, which is only evaluated after the zero-volume guard. -/
def snapDifference (P : ℚ) (food : Food)
    (roundedMixAmount roundedDailyAmount w : ℚ) : ℚ :=
  findPercentDifference
    ((calculateDilutionActualProtein food roundedMixAmount
      (snapMixTotalVolume food roundedMixAmount w) roundedDailyAmount).getD 0)
    P

/-- findRoundedMixWaterAmount from calculator.ts. -/
def findRoundedMixWaterAmount (P : ℚ) (food : Food)
    (mixAmount idealWaterAmount dailyAmount protein_tolerance : ℚ) :
    Option ℚ :=
  let floorWater := floorSnap idealWaterAmount
  let ceilWater := ceilSnap idealWaterAmount
  let unit : Unit := if food.type = FoodType.SOLID then .g else .ml
  let roundedDailyAmount := formatAmount dailyAmount .ml
  let roundedMixAmount := formatAmount mixAmount unit
  if snapMixTotalVolume food roundedMixAmount floorWater = 0 then none
  else
    let floorDifference :=
      snapDifference P food roundedMixAmount roundedDailyAmount floorWater
    if ceilWater ≠ floorWater then
      if snapMixTotalVolume food roundedMixAmount ceilWater = 0 then none
      else
        let ceilDifference :=
          snapDifference P food roundedMixAmount roundedDailyAmount ceilWater
        let minDiff := min floorDifference ceilDifference
        if floorDifference = minDiff then
          if floorDifference ≤ protein_tolerance then some floorWater else none
        else
          if ceilDifference ≤ protein_tolerance then some ceilWater else none
    else
      if floorDifference ≤ protein_tolerance then some floorWater else none

/-- A SOLID test food with 100 mg protein per gram, as built by the
test helper createFood of the repository. -/
def sampleSolidFood : Food :=
  { name := "Peanut Flour"
    type := FoodType.SOLID
    gramsInServing := 10
    servingSize := 100 }

/-- A SOLID test food with 170 mg protein per gram, matching the fixture of
the Direct Amount Snapping tests in calculator.test.ts. -/
def snapTestFood : Food :=
  { name := "Peanut Flour"
    type := FoodType.SOLID
    gramsInServing := 17
    servingSize := 100 }

/-- A small configuration with singleton candidate lists and a 2 percent
protein tolerance, used to evaluate the search on concrete inputs. -/
def tinyConfig : ProtocolConfig where
  minMeasurableMass := 0.2
  minMeasurableVolume := 0.2
  minServingsForMix := 3
  PROTEIN_TOLERANCE := 0.02
  DEFAULT_FOOD_A_DILUTION_THRESHOLD := 0.2
  DEFAULT_FOOD_B_THRESHOLD := 0.2
  MAX_SOLID_CONCENTRATION := 0.05
  MAX_MIX_WATER := 500
  MAX_DAILY_AMOUNT := 250
  SOLID_MIX_CANDIDATES := [1]
  LIQUID_MIX_CANDIDATES := [1]
  DAILY_AMOUNT_CANDIDATES := [1]

/-- The single candidate the search finds for target 11 mg with
sampleSolidFood under tinyConfig: 1 g of food in 9 ml of water, 1 ml daily. -/
def sampleCandidate : Candidate :=
  { mixFoodAmount := 1
    mixWaterAmount := 9
    dailyAmount := 1
    mixTotalVolume := 9
    servings := 9 }

/-- The description the specification gives of findRoundedMixWaterAmount: evaluate
the floor and ceil 0.5 ml snaps of the ideal water amount (against the
display-rounded mix and daily amounts), pick the snap with the smaller
relative protein error (the floor snap on ties), and return it exactly when
that smaller error is within the tolerance; otherwise return none. Stated
separately so the source function can be proven to refine it. -/
def findRoundedMixWaterAmountSpec (P : ℚ) (food : Food)
    (mixAmount idealWaterAmount dailyAmount protein_tolerance : ℚ) :
    Option ℚ :=
  let unit : Unit := if food.type = FoodType.SOLID then .g else .ml
  let roundedDailyAmount := formatAmount dailyAmount .ml
  let roundedMixAmount := formatAmount mixAmount unit
  let floorWater := floorSnap idealWaterAmount
  let ceilWater := ceilSnap idealWaterAmount
  let floorDifference :=
    snapDifference P food roundedMixAmount roundedDailyAmount floorWater
  let ceilDifference :=
    if ceilWater = floorWater then floorDifference
    else snapDifference P food roundedMixAmount roundedDailyAmount ceilWater
  if min floorDifference ceilDifference ≤ protein_tolerance then
    some (if floorDifference ≤ ceilDifference then floorWater else ceilWater)
  else none

/-- Destructuring a successful checkCandidateValidity call: the returned
candidate records the tested recipe and every constraint check passed. -/
theorem checkCandidateValidity_eq_some
    {food : Food} {P totalMixProtein mixFood dailyAmount waterVal : ℚ}
    {config : ProtocolConfig} {c : Candidate}
    (h : checkCandidateValidity food P totalMixProtein mixFood dailyAmount
      waterVal config = some c) :
    c.mixFoodAmount = mixFood ∧ c.mixWaterAmount = waterVal ∧
    c.dailyAmount = dailyAmount ∧
    c.mixTotalVolume =
      (if food.type = FoodType.SOLID then waterVal else mixFood + waterVal) ∧
    c.servings = c.mixTotalVolume / dailyAmount ∧
    config.minServingsForMix ≤ c.servings ∧
    (if food.type = FoodType.SOLID then config.minMeasurableMass ≤ mixFood
      else config.minMeasurableVolume ≤ mixFood) ∧
    config.minMeasurableVolume ≤ dailyAmount ∧
    waterVal ≤ config.MAX_MIX_WATER ∧
    config.minMeasurableVolume ≤ waterVal ∧
    |totalMixProtein / c.mixTotalVolume * dailyAmount / P - 1| ≤
      config.PROTEIN_TOLERANCE := by
  simp only [checkCandidateValidity] at h
  by_cases hft : food.type = FoodType.SOLID
  · simp only [hft, if_true, eq_self_iff_true] at h ⊢
    split_ifs at h with h1 h2 h3 h4 h5 h6
    obtain rfl : _ = c := Option.some.inj h
    exact ⟨rfl, rfl, rfl, rfl, rfl, not_lt.mp h1, not_lt.mp h2, not_lt.mp h3,
      not_lt.mp h4, not_lt.mp h5, not_lt.mp h6⟩
  · simp only [hft, if_false, eq_self_iff_true] at h ⊢
    split_ifs at h with h1 h2 h3 h4 h5 h6
    obtain rfl : _ = c := Option.some.inj h
    exact ⟨rfl, rfl, rfl, rfl, rfl, not_lt.mp h1, not_lt.mp h2, not_lt.mp h3,
      not_lt.mp h4, not_lt.mp h5, not_lt.mp h6⟩

/-- Every candidate produced by the loop body of findDilutionCandidates for a
given pair comes from a successful checkCandidateValidity call on that pair. -/
theorem mem_pairCandidates {P : ℚ} {food : Food} {config : ProtocolConfig}
    {mixFood dailyAmount : ℚ} {c : Candidate}
    (h : c ∈ pairCandidates P food config mixFood dailyAmount) :
    ∃ w, checkCandidateValidity food P (mixFood * food.getMgPerUnit) mixFood
      dailyAmount w config = some c := by
  simp only [pairCandidates] at h
  split_ifs at h with h1 h2
  · simp at h
  · rcases ho : checkCandidateValidity food P (mixFood * food.getMgPerUnit)
      mixFood dailyAmount (idealWaterFor P food mixFood dailyAmount) config
      with _ | c2
    · rw [ho] at h
      simp at h
    · rw [ho] at h
      simp only [Option.toList_some, List.mem_singleton] at h
      subst h
      exact ⟨idealWaterFor P food mixFood dailyAmount, ho⟩
  · rw [List.mem_filterMap] at h
    obtain ⟨w, _, hcw⟩ := h
    exact ⟨w, hcw⟩

/-- Every candidate returned by findDilutionCandidates comes from the loop
body of some (mixFood, dailyAmount) pair. -/
theorem mem_findDilutionCandidates {P : ℚ} {food : Food}
    {config : ProtocolConfig} {c : Candidate}
    (h : c ∈ findDilutionCandidates P food config) :
    ∃ mixFood dailyAmount,
      c ∈ pairCandidates P food config mixFood dailyAmount := by
  simp only [findDilutionCandidates] at h
  rw [List.mem_mergeSort, List.mem_flatMap] at h
  obtain ⟨mf, _, h⟩ := h
  rw [List.mem_flatMap] at h
  obtain ⟨da, _, h⟩ := h
  exact ⟨mf, da, h⟩

/-- C1: for every targetMg > 0, every food, and every config, every Candidate
returned by findDilutionCandidates delivers protein within the relative
PROTEIN_TOLERANCE of the target, has mixFoodAmount at least the
unit-appropriate minimum measurable quantity, dailyAmount at least
minMeasurableVolume, mixWaterAmount between minMeasurableVolume and
MAX_MIX_WATER, and servings at least minServingsForMix. -/
theorem C1_candidate_validity (P : ℚ) (food : Food) (config : ProtocolConfig)
    (hP : 0 < P) (c : Candidate)
    (hc : c ∈ findDilutionCandidates P food config) :
    |c.mixFoodAmount * food.getMgPerUnit / c.mixTotalVolume * c.dailyAmount
      / P - 1| ≤ config.PROTEIN_TOLERANCE ∧
    (if food.type = FoodType.SOLID then
      config.minMeasurableMass ≤ c.mixFoodAmount
      else config.minMeasurableVolume ≤ c.mixFoodAmount) ∧
    config.minMeasurableVolume ≤ c.dailyAmount ∧
    config.minMeasurableVolume ≤ c.mixWaterAmount ∧
    c.mixWaterAmount ≤ config.MAX_MIX_WATER ∧
    config.minServingsForMix ≤ c.servings := by
  obtain ⟨mf, da, hpc⟩ := mem_findDilutionCandidates hc
  obtain ⟨w, hw⟩ := mem_pairCandidates hpc
  obtain ⟨e1, e2, e3, _, _, hserv, hmass, hda, hwmax, hwmin, htol⟩ :=
    checkCandidateValidity_eq_some hw
  rw [e1, e2, e3]
  exact ⟨htol, hmass, hda, hwmin, hwmax, hserv⟩

/-- C6: calculateDilutionActualProtein returns none exactly when the mix
total volume is zero, and otherwise returns exactly
mixAmount × mgPerUnit × (dailyAmount / mixTotalVolume); being a total
function of its arguments, it never throws. -/
theorem C6_calculateDilutionActualProtein_spec (food : Food)
    (mixAmount mixTotalVolume dailyAmount : ℚ) :
    (calculateDilutionActualProtein food mixAmount mixTotalVolume dailyAmount
      = none ↔ mixTotalVolume = 0) ∧
    (mixTotalVolume ≠ 0 →
      calculateDilutionActualProtein food mixAmount mixTotalVolume dailyAmount
      = some (mixAmount * food.getMgPerUnit * (dailyAmount / mixTotalVolume)))
    := by
  constructor
  · by_cases h : mixTotalVolume = 0 <;>
      simp [calculateDilutionActualProtein, h]
  · intro h
    simp [calculateDilutionActualProtein, h]

/-- Concrete evaluation: the ceil snap of 100/11 ml is 9.5 ml. -/
theorem ceilSnap_100_11 : ceilSnap ((100 : ℚ) / 11) = 19 / 2 := by
  have h : (⌈(200 : ℚ) / 11⌉ : ℤ) = 19 := by
    rw [Int.ceil_eq_iff]
    constructor <;> norm_num
  norm_num [ceilSnap, DILUTION_WATER_STEP_RESOLUTION]
  rw [h]
  norm_num

/-- Concrete evaluation: 9 ml of water passes validation for target 11 mg
with sampleSolidFood under tinyConfig (relative error 1/99). -/
theorem check_water_9 :
    checkCandidateValidity sampleSolidFood 11 100 1 1 9 tinyConfig =
      some sampleCandidate := by
  simp only [checkCandidateValidity, sampleSolidFood, tinyConfig,
    sampleCandidate]
  norm_num
  intro hcon
  rw [abs_of_pos (by norm_num)] at hcon
  norm_num at hcon

/-- Concrete evaluation: 9.5 ml of water fails validation for target 11 mg
with sampleSolidFood under tinyConfig (relative error 9/209 above 1/50). -/
theorem check_water_95 :
    checkCandidateValidity sampleSolidFood 11 100 1 1 (19 / 2) tinyConfig =
      none := by
  simp only [checkCandidateValidity, sampleSolidFood, tinyConfig]
  norm_num [abs_le]

/-- Concrete evaluation of the loop body for the pair (1 g, 1 ml) at target
11 mg under tinyConfig: only the floor snap survives. -/
theorem pairCandidates_eval :
    pairCandidates 11 sampleSolidFood tinyConfig 1 1 = [sampleCandidate] := by
  have hiw : idealWaterFor 11 sampleSolidFood 1 1 = 100 / 11 := by
    norm_num [idealWaterFor, Food.getMgPerUnit, sampleSolidFood]
  have hfs : floorSnap ((100 : ℚ) / 11) = 9 := by
    norm_num [floorSnap, DILUTION_WATER_STEP_RESOLUTION]
  have htm : (1 : ℚ) * sampleSolidFood.getMgPerUnit = 100 := by
    norm_num [Food.getMgPerUnit, sampleSolidFood]
  have hsnap : (roundedOptionsToCheck ((100 : ℚ) / 11)).filterMap
      (fun testWater => checkCandidateValidity sampleSolidFood 11 100 1 1
        testWater tinyConfig) = [sampleCandidate] := by
    simp only [roundedOptionsToCheck, hfs, ceilSnap_100_11]
    rw [if_neg (by norm_num)]
    simp only [List.filterMap_cons, List.filterMap_nil, check_water_9,
      check_water_95]
  simp only [pairCandidates, hiw, htm]
  rw [if_neg (by norm_num), hsnap]
  simp

/-- Concrete evaluation: sampleCandidate is returned by the search for
target 11 mg with sampleSolidFood under tinyConfig. -/
theorem sampleCandidate_mem :
    sampleCandidate ∈ findDilutionCandidates 11 sampleSolidFood tinyConfig
    := by
  simp only [findDilutionCandidates]
  rw [List.mem_mergeSort]
  rw [if_pos (show sampleSolidFood.type = FoodType.SOLID from rfl)]
  rw [show tinyConfig.SOLID_MIX_CANDIDATES = [1] from rfl,
    show tinyConfig.DAILY_AMOUNT_CANDIDATES = [1] from rfl]
  simp [pairCandidates_eval]

/-- Witness for C1 at a concrete input. -/
theorem C1_witness :
    (0 : ℚ) < 11 ∧
    sampleCandidate ∈ findDilutionCandidates 11 sampleSolidFood tinyConfig ∧
    (|sampleCandidate.mixFoodAmount * sampleSolidFood.getMgPerUnit /
        sampleCandidate.mixTotalVolume * sampleCandidate.dailyAmount / 11 - 1|
        ≤ tinyConfig.PROTEIN_TOLERANCE ∧
      (if sampleSolidFood.type = FoodType.SOLID then
        tinyConfig.minMeasurableMass ≤ sampleCandidate.mixFoodAmount
        else tinyConfig.minMeasurableVolume ≤ sampleCandidate.mixFoodAmount) ∧
      tinyConfig.minMeasurableVolume ≤ sampleCandidate.dailyAmount ∧
      tinyConfig.minMeasurableVolume ≤ sampleCandidate.mixWaterAmount ∧
      sampleCandidate.mixWaterAmount ≤ tinyConfig.MAX_MIX_WATER ∧
      tinyConfig.minServingsForMix ≤ sampleCandidate.servings) :=
  ⟨by norm_num, sampleCandidate_mem,
    C1_candidate_validity 11 sampleSolidFood tinyConfig (by norm_num)
      sampleCandidate sampleCandidate_mem⟩

/-- The snapped options tested for a pair are exactly the floor snap and the
ceil snap of the ideal water volume. -/
theorem mem_roundedOptionsToCheck {w iw : ℚ}
    (h : w ∈ roundedOptionsToCheck iw) :
    w = floorSnap iw ∨ w = ceilSnap iw := by
  simp only [roundedOptionsToCheck] at h
  split_ifs at h with hc
  · rw [List.mem_singleton] at h
    exact Or.inl h
  · simp only [List.mem_cons, List.mem_singleton, List.not_mem_nil,
      or_false] at h
    exact h

/-- C2: snap-first policy. The returned candidate list is a permutation of
the per-pair lists; for each (mixFood, dailyAmount) pair with a nonnegative
ideal water volume, if at least one 0.5 ml aligned snap passes validation
then the pair contributes exactly the passing snaps — and when the unsnapped
ideal value is not itself aligned it does not appear as the water amount of
any contributed candidate — while if no snap passes, the pair contributes
the unsnapped ideal value exactly when it passes validation itself. -/
theorem C2_snap_first_policy (P : ℚ) (food : Food) (config : ProtocolConfig)
    (mixFood dailyAmount : ℚ)
    (hiw : 0 ≤ idealWaterFor P food mixFood dailyAmount) :
    (findDilutionCandidates P food config).Perm
      ((if food.type = FoodType.SOLID then config.SOLID_MIX_CANDIDATES
        else config.LIQUID_MIX_CANDIDATES).flatMap fun mf =>
        config.DAILY_AMOUNT_CANDIDATES.flatMap fun da =>
          pairCandidates P food config mf da) ∧
    ((∃ w ∈ roundedOptionsToCheck (idealWaterFor P food mixFood dailyAmount),
        (checkCandidateValidity food P (mixFood * food.getMgPerUnit) mixFood
          dailyAmount w config).isSome) →
      pairCandidates P food config mixFood dailyAmount =
        (roundedOptionsToCheck
          (idealWaterFor P food mixFood dailyAmount)).filterMap
          (fun w => checkCandidateValidity food P
            (mixFood * food.getMgPerUnit) mixFood dailyAmount w config) ∧
      (idealWaterFor P food mixFood dailyAmount ≠
          floorSnap (idealWaterFor P food mixFood dailyAmount) →
        idealWaterFor P food mixFood dailyAmount ≠
          ceilSnap (idealWaterFor P food mixFood dailyAmount) →
        ∀ c ∈ pairCandidates P food config mixFood dailyAmount,
          c.mixWaterAmount ≠ idealWaterFor P food mixFood dailyAmount)) ∧
    ((¬ ∃ w ∈ roundedOptionsToCheck (idealWaterFor P food mixFood dailyAmount),
        (checkCandidateValidity food P (mixFood * food.getMgPerUnit) mixFood
          dailyAmount w config).isSome) →
      pairCandidates P food config mixFood dailyAmount =
        (checkCandidateValidity food P (mixFood * food.getMgPerUnit) mixFood
          dailyAmount (idealWaterFor P food mixFood dailyAmount)
          config).toList) := by
  have hneg : ¬ idealWaterFor P food mixFood dailyAmount < 0 := not_lt.mpr hiw
  have hemp : ((roundedOptionsToCheck
      (idealWaterFor P food mixFood dailyAmount)).filterMap
      (fun w => checkCandidateValidity food P (mixFood * food.getMgPerUnit)
        mixFood dailyAmount w config)).isEmpty = true ↔
      ¬ ∃ w ∈ roundedOptionsToCheck (idealWaterFor P food mixFood dailyAmount),
        (checkCandidateValidity food P (mixFood * food.getMgPerUnit) mixFood
          dailyAmount w config).isSome := by
    rw [List.isEmpty_iff, List.filterMap_eq_nil_iff]
    constructor
    · rintro hall ⟨w, hw, hsome⟩
      rw [hall w hw] at hsome
      simp at hsome
    · intro hnone w hw
      rcases ho : checkCandidateValidity food P (mixFood * food.getMgPerUnit)
        mixFood dailyAmount w config with _ | c
      · rfl
      · exact absurd ⟨w, hw, by rw [ho]; rfl⟩ hnone
  refine ⟨?_, ?_, ?_⟩
  · simp only [findDilutionCandidates]
    exact List.mergeSort_perm _ _
  · intro hex
    have heq : pairCandidates P food config mixFood dailyAmount =
        (roundedOptionsToCheck
          (idealWaterFor P food mixFood dailyAmount)).filterMap
          (fun w => checkCandidateValidity food P
            (mixFood * food.getMgPerUnit) mixFood dailyAmount w config) := by
      simp only [pairCandidates]
      rw [if_neg hneg, if_neg (by rw [hemp]; exact not_not_intro hex)]
    refine ⟨heq, ?_⟩
    intro hnf hnc c hc
    rw [heq, List.mem_filterMap] at hc
    obtain ⟨w, hwmem, hwc⟩ := hc
    obtain ⟨_, e2, _⟩ := checkCandidateValidity_eq_some hwc
    rw [e2]
    rcases mem_roundedOptionsToCheck hwmem with rfl | rfl
    · exact fun hcon => hnf hcon.symm
    · exact fun hcon => hnc hcon.symm
  · intro hnex
    simp only [pairCandidates]
    rw [if_neg hneg, if_pos (hemp.mpr hnex)]

/-- Witness for C2 at a concrete input. -/
theorem C2_witness :
    0 ≤ idealWaterFor 11 sampleSolidFood 1 1 ∧
    ((findDilutionCandidates 11 sampleSolidFood tinyConfig).Perm
      ((if sampleSolidFood.type = FoodType.SOLID then
          tinyConfig.SOLID_MIX_CANDIDATES
        else tinyConfig.LIQUID_MIX_CANDIDATES).flatMap fun mf =>
        tinyConfig.DAILY_AMOUNT_CANDIDATES.flatMap fun da =>
          pairCandidates 11 sampleSolidFood tinyConfig mf da) ∧
    ((∃ w ∈ roundedOptionsToCheck (idealWaterFor 11 sampleSolidFood 1 1),
        (checkCandidateValidity sampleSolidFood 11
          (1 * sampleSolidFood.getMgPerUnit) 1 1 w tinyConfig).isSome) →
      pairCandidates 11 sampleSolidFood tinyConfig 1 1 =
        (roundedOptionsToCheck
          (idealWaterFor 11 sampleSolidFood 1 1)).filterMap
          (fun w => checkCandidateValidity sampleSolidFood 11
            (1 * sampleSolidFood.getMgPerUnit) 1 1 w tinyConfig) ∧
      (idealWaterFor 11 sampleSolidFood 1 1 ≠
          floorSnap (idealWaterFor 11 sampleSolidFood 1 1) →
        idealWaterFor 11 sampleSolidFood 1 1 ≠
          ceilSnap (idealWaterFor 11 sampleSolidFood 1 1) →
        ∀ c ∈ pairCandidates 11 sampleSolidFood tinyConfig 1 1,
          c.mixWaterAmount ≠ idealWaterFor 11 sampleSolidFood 1 1)) ∧
    ((¬ ∃ w ∈ roundedOptionsToCheck (idealWaterFor 11 sampleSolidFood 1 1),
        (checkCandidateValidity sampleSolidFood 11
          (1 * sampleSolidFood.getMgPerUnit) 1 1 w tinyConfig).isSome) →
      pairCandidates 11 sampleSolidFood tinyConfig 1 1 =
        (checkCandidateValidity sampleSolidFood 11
          (1 * sampleSolidFood.getMgPerUnit) 1 1
          (idealWaterFor 11 sampleSolidFood 1 1) tinyConfig).toList)) :=
  ⟨by norm_num [idealWaterFor, Food.getMgPerUnit, sampleSolidFood],
    C2_snap_first_policy 11 sampleSolidFood tinyConfig 1 1
      (by norm_num [idealWaterFor, Food.getMgPerUnit, sampleSolidFood])⟩

/-- Pointwise monotone filterMap results give monotone lengths. -/
theorem length_filterMap_mono {α β : Type} {f g : α → Option β}
    (h : ∀ a b, f a = some b → g a = some b) (l : List α) :
    (l.filterMap f).length ≤ (l.filterMap g).length := by
  induction l with
  | nil => simp
  | cons a l ih =>
    rcases hfa : f a with _ | b
    · rcases hga : g a with _ | b2
      · simp only [List.filterMap_cons, hfa, hga]
        exact ih
      · simp only [List.filterMap_cons, hfa, hga, List.length_cons]
        exact le_trans ih (Nat.le_succ _)
    · simp only [List.filterMap_cons, hfa, h a b hfa, List.length_cons]
      exact Nat.succ_le_succ ih

/-- A candidate accepted under a tighter protein tolerance is accepted
unchanged under a looser one, all other constraints being equal. -/
theorem checkCandidateValidity_tol_mono {food : Food}
    {P totalMixProtein mixFood dailyAmount waterVal : ℚ}
    {cfg1 cfg2 : ProtocolConfig} {c : Candidate}
    (hmass : cfg1.minMeasurableMass = cfg2.minMeasurableMass)
    (hvol : cfg1.minMeasurableVolume = cfg2.minMeasurableVolume)
    (hserv : cfg1.minServingsForMix = cfg2.minServingsForMix)
    (hwater : cfg1.MAX_MIX_WATER = cfg2.MAX_MIX_WATER)
    (ht : cfg1.PROTEIN_TOLERANCE ≤ cfg2.PROTEIN_TOLERANCE)
    (h : checkCandidateValidity food P totalMixProtein mixFood dailyAmount
      waterVal cfg1 = some c) :
    checkCandidateValidity food P totalMixProtein mixFood dailyAmount waterVal
      cfg2 = some c := by
  simp only [checkCandidateValidity] at h ⊢
  by_cases hft : food.type = FoodType.SOLID
  · simp only [hft, if_true, eq_self_iff_true] at h ⊢
    split_ifs at h with h1 h2 h3 h4 h5 h6
    rw [if_neg (hserv ▸ h1), if_neg (hmass ▸ h2), if_neg (hvol ▸ h3),
      if_neg (hwater ▸ h4), if_neg (hvol ▸ h5),
      if_neg (not_lt.mpr (le_trans (not_lt.mp h6) ht))]
    exact h
  · simp only [hft, if_false, eq_self_iff_true] at h ⊢
    split_ifs at h with h1 h2 h3 h4 h5 h6
    rw [if_neg (hserv ▸ h1), if_neg (hvol ▸ h2), if_neg (hvol ▸ h3),
      if_neg (hwater ▸ h4), if_neg (hvol ▸ h5),
      if_neg (not_lt.mpr (le_trans (not_lt.mp h6) ht))]
    exact h

/-- Loosening only the protein tolerance never shrinks the number of
candidates a single (mixFood, dailyAmount) pair contributes. -/
theorem pairCandidates_tol_mono_length (P : ℚ) (food : Food)
    (mixFood dailyAmount : ℚ) {cfg1 cfg2 : ProtocolConfig}
    (hmass : cfg1.minMeasurableMass = cfg2.minMeasurableMass)
    (hvol : cfg1.minMeasurableVolume = cfg2.minMeasurableVolume)
    (hserv : cfg1.minServingsForMix = cfg2.minServingsForMix)
    (hwater : cfg1.MAX_MIX_WATER = cfg2.MAX_MIX_WATER)
    (ht : cfg1.PROTEIN_TOLERANCE ≤ cfg2.PROTEIN_TOLERANCE) :
    (pairCandidates P food cfg1 mixFood dailyAmount).length ≤
    (pairCandidates P food cfg2 mixFood dailyAmount).length := by
  have hmono : ∀ w c, checkCandidateValidity food P
      (mixFood * food.getMgPerUnit) mixFood dailyAmount w cfg1 = some c →
      checkCandidateValidity food P (mixFood * food.getMgPerUnit) mixFood
        dailyAmount w cfg2 = some c :=
    fun _ _ h => checkCandidateValidity_tol_mono hmass hvol hserv hwater ht h
  simp only [pairCandidates]
  by_cases hiw : idealWaterFor P food mixFood dailyAmount < 0
  · rw [if_pos hiw, if_pos hiw]
  · rw [if_neg hiw, if_neg hiw]
    have hlen : (((roundedOptionsToCheck
        (idealWaterFor P food mixFood dailyAmount)).filterMap
        (fun w => checkCandidateValidity food P (mixFood * food.getMgPerUnit)
          mixFood dailyAmount w cfg1))).length ≤
        (((roundedOptionsToCheck
        (idealWaterFor P food mixFood dailyAmount)).filterMap
        (fun w => checkCandidateValidity food P (mixFood * food.getMgPerUnit)
          mixFood dailyAmount w cfg2))).length :=
      length_filterMap_mono (fun w c h => hmono w c h) _
    by_cases h1 : ((roundedOptionsToCheck
        (idealWaterFor P food mixFood dailyAmount)).filterMap
        (fun w => checkCandidateValidity food P (mixFood * food.getMgPerUnit)
          mixFood dailyAmount w cfg1)).isEmpty
    · rw [if_pos h1]
      by_cases h2 : ((roundedOptionsToCheck
          (idealWaterFor P food mixFood dailyAmount)).filterMap
          (fun w => checkCandidateValidity food P
            (mixFood * food.getMgPerUnit) mixFood dailyAmount w
            cfg2)).isEmpty
      · rw [if_pos h2]
        rcases ho : checkCandidateValidity food P
            (mixFood * food.getMgPerUnit) mixFood dailyAmount
            (idealWaterFor P food mixFood dailyAmount) cfg1 with _ | c
        · simp
        · rw [hmono _ _ ho]
      · rw [if_neg h2]
        have hpos : 1 ≤ ((roundedOptionsToCheck
            (idealWaterFor P food mixFood dailyAmount)).filterMap
            (fun w => checkCandidateValidity food P
              (mixFood * food.getMgPerUnit) mixFood dailyAmount w
              cfg2)).length := by
          rcases Nat.eq_zero_or_pos (((roundedOptionsToCheck
              (idealWaterFor P food mixFood dailyAmount)).filterMap
              (fun w => checkCandidateValidity food P
                (mixFood * food.getMgPerUnit) mixFood dailyAmount w
                cfg2)).length) with hz | hp
          · rw [List.length_eq_zero] at hz
            rw [← List.isEmpty_iff] at hz
            exact absurd hz h2
          · exact hp
        calc ((checkCandidateValidity food P (mixFood * food.getMgPerUnit)
            mixFood dailyAmount (idealWaterFor P food mixFood dailyAmount)
            cfg1).toList).length ≤ 1 := by
              rcases checkCandidateValidity food P
                (mixFood * food.getMgPerUnit) mixFood dailyAmount
                (idealWaterFor P food mixFood dailyAmount) cfg1 with _ | c <;>
                simp
          _ ≤ _ := hpos
    · rw [if_neg h1]
      have h2 : ¬ ((roundedOptionsToCheck
          (idealWaterFor P food mixFood dailyAmount)).filterMap
          (fun w => checkCandidateValidity food P
            (mixFood * food.getMgPerUnit) mixFood dailyAmount w
            cfg2)).isEmpty := by
        intro hcon
        apply h1
        rw [List.isEmpty_iff] at hcon ⊢
        rw [← List.length_eq_zero] at hcon ⊢
        omega
      rw [if_neg h2]
      exact hlen

/-- C3: widening only PROTEIN_TOLERANCE never decreases the number of
candidates findDilutionCandidates returns for the same target and food. -/
theorem C3_tolerance_monotone (P : ℚ) (food : Food) (cfg : ProtocolConfig)
    (t1 t2 : ℚ) (hP : 0 < P) (ht : t1 ≤ t2) :
    (findDilutionCandidates P food
      { cfg with PROTEIN_TOLERANCE := t1 }).length ≤
    (findDilutionCandidates P food
      { cfg with PROTEIN_TOLERANCE := t2 }).length := by
  simp only [findDilutionCandidates]
  rw [List.length_mergeSort, List.length_mergeSort]
  rw [List.length_flatMap, List.length_flatMap]
  apply List.sum_le_sum
  intro mf _
  simp only [Function.comp_apply]
  rw [List.length_flatMap, List.length_flatMap]
  apply List.sum_le_sum
  intro da _
  simp only [Function.comp_apply]
  exact pairCandidates_tol_mono_length P food mf da rfl rfl rfl rfl ht

/-- Witness for C3 at a concrete input. -/
theorem C3_witness :
    (0 : ℚ) < 11 ∧ (1 : ℚ) / 1000 ≤ 1 / 2 ∧
    (findDilutionCandidates 11 sampleSolidFood
      { tinyConfig with PROTEIN_TOLERANCE := 1 / 1000 }).length ≤
    (findDilutionCandidates 11 sampleSolidFood
      { tinyConfig with PROTEIN_TOLERANCE := 1 / 2 }).length :=
  ⟨by norm_num, by norm_num,
    C3_tolerance_monotone 11 sampleSolidFood tinyConfig (1 / 1000) (1 / 2)
      (by norm_num) (by norm_num)⟩

/-- cmpQ of a smaller value is −1. -/
theorem cmpQ_of_lt {x y : ℚ} (h : x < y) : cmpQ x y = -1 := by
  simp [cmpQ, h]

/-- cmpQ of a larger value is 1. -/
theorem cmpQ_of_gt {x y : ℚ} (h : y < x) : cmpQ x y = 1 := by
  simp [cmpQ, not_lt.mpr h.le, h]

/-- cmpQ of equal values is 0. -/
theorem cmpQ_of_eq {x y : ℚ} (h : x = y) : cmpQ x y = 0 := by
  simp [cmpQ, h]

/-- cmpQ is nonpositive exactly for ≤. -/
theorem cmpQ_nonpos_iff {x y : ℚ} : cmpQ x y ≤ 0 ↔ x ≤ y := by
  rcases lt_trichotomy x y with h | h | h
  · rw [cmpQ_of_lt h]
    simp [h.le]
  · rw [cmpQ_of_eq h]
    simp [h.le]
  · rw [cmpQ_of_gt h]
    simp [not_le.mpr h]

/-- The tie-break comparator is nonpositive exactly for the lexicographic
order on (mixFoodAmount, dailyAmount, mixTotalVolume, mixWaterAmount). -/
theorem lexCmp_nonpos_iff {a b : Candidate} :
    lexCmp a b ≤ 0 ↔
      (a.mixFoodAmount < b.mixFoodAmount ∨ (a.mixFoodAmount = b.mixFoodAmount ∧
        (a.dailyAmount < b.dailyAmount ∨ (a.dailyAmount = b.dailyAmount ∧
          (a.mixTotalVolume < b.mixTotalVolume ∨
            (a.mixTotalVolume = b.mixTotalVolume ∧
              a.mixWaterAmount ≤ b.mixWaterAmount)))))) := by
  unfold lexCmp
  rcases lt_trichotomy a.mixFoodAmount b.mixFoodAmount with h1 | h1 | h1
  · rw [cmpQ_of_lt h1]
    simp [h1]
  · rw [cmpQ_of_eq h1]
    simp only [ne_eq, not_true_eq_false, if_false, h1, lt_self_iff_false,
      true_and, false_or]
    rcases lt_trichotomy a.dailyAmount b.dailyAmount with h2 | h2 | h2
    · rw [cmpQ_of_lt h2]
      simp [h2]
    · rw [cmpQ_of_eq h2]
      simp only [ne_eq, not_true_eq_false, if_false, h2, lt_self_iff_false,
        true_and, false_or]
      rcases lt_trichotomy a.mixTotalVolume b.mixTotalVolume with h3 | h3 | h3
      · rw [cmpQ_of_lt h3]
        simp [h3]
      · rw [cmpQ_of_eq h3]
        simp only [ne_eq, not_true_eq_false, if_false, h3, lt_self_iff_false,
          true_and, false_or]
        exact cmpQ_nonpos_iff
      · rw [cmpQ_of_gt h3]
        simp [not_lt.mpr h3.le, h3.ne']
    · rw [cmpQ_of_gt h2]
      simp [not_lt.mpr h2.le, h2.ne']
  · rw [cmpQ_of_gt h1]
    simp [not_lt.mpr h1.le, h1.ne']

/-- The tie-break order is total. -/
theorem lexCmp_nonpos_total (a b : Candidate) :
    lexCmp a b ≤ 0 ∨ lexCmp b a ≤ 0 := by
  rw [lexCmp_nonpos_iff, lexCmp_nonpos_iff]
  rcases lt_trichotomy a.mixFoodAmount b.mixFoodAmount with h1 | h1 | h1
  · exact Or.inl (Or.inl h1)
  · rcases lt_trichotomy a.dailyAmount b.dailyAmount with h2 | h2 | h2
    · exact Or.inl (Or.inr ⟨h1, Or.inl h2⟩)
    · rcases lt_trichotomy a.mixTotalVolume b.mixTotalVolume with h3 | h3 | h3
      · exact Or.inl (Or.inr ⟨h1, Or.inr ⟨h2, Or.inl h3⟩⟩)
      · rcases le_total a.mixWaterAmount b.mixWaterAmount with h4 | h4
        · exact Or.inl (Or.inr ⟨h1, Or.inr ⟨h2, Or.inr ⟨h3, h4⟩⟩⟩)
        · exact Or.inr (Or.inr ⟨h1.symm, Or.inr ⟨h2.symm,
            Or.inr ⟨h3.symm, h4⟩⟩⟩)
      · exact Or.inr (Or.inr ⟨h1.symm, Or.inr ⟨h2.symm, Or.inl h3⟩⟩)
    · exact Or.inr (Or.inr ⟨h1.symm, Or.inl h2⟩)
  · exact Or.inr (Or.inl h1)

/-- The tie-break order is transitive. -/
theorem lexCmp_nonpos_trans {a b c : Candidate} (hab : lexCmp a b ≤ 0)
    (hbc : lexCmp b c ≤ 0) : lexCmp a c ≤ 0 := by
  rw [lexCmp_nonpos_iff] at hab hbc ⊢
  rcases hab with h | ⟨e1, hab⟩
  · rcases hbc with h2 | ⟨e2, _⟩
    · exact Or.inl (h.trans h2)
    · exact Or.inl (lt_of_lt_of_le h (le_of_eq e2))
  · rcases hbc with h2 | ⟨e2, hbc⟩
    · exact Or.inl (lt_of_le_of_lt (le_of_eq e1) h2)
    · refine Or.inr ⟨e1.trans e2, ?_⟩
      rcases hab with h | ⟨f1, hab⟩
      · rcases hbc with h2 | ⟨f2, _⟩
        · exact Or.inl (h.trans h2)
        · exact Or.inl (lt_of_lt_of_le h (le_of_eq f2))
      · rcases hbc with h2 | ⟨f2, hbc⟩
        · exact Or.inl (lt_of_le_of_lt (le_of_eq f1) h2)
        · refine Or.inr ⟨f1.trans f2, ?_⟩
          rcases hab with h | ⟨g1, hab⟩
          · rcases hbc with h2 | ⟨g2, _⟩
            · exact Or.inl (h.trans h2)
            · exact Or.inl (lt_of_lt_of_le h (le_of_eq g2))
          · rcases hbc with h2 | ⟨g2, hbc⟩
            · exact Or.inl (lt_of_le_of_lt (le_of_eq g1) h2)
            · exact Or.inr ⟨g1.trans g2, hab.trans hbc⟩

/-- Characterization of the full comparator for SOLID foods: a candidate
meeting the low-concentration threshold beats one that does not, and
otherwise the tie-break decides. -/
theorem candidateCmp_some_nonpos_iff {food : Food} {m : ℚ} {a b : Candidate}
    (hft : food.type = FoodType.SOLID) :
    candidateCmp food (some m) a b ≤ 0 ↔
      ((m ≤ a.dailyAmount ∧ ¬ m ≤ b.dailyAmount) ∨
        ((m ≤ a.dailyAmount ↔ m ≤ b.dailyAmount) ∧ lexCmp a b ≤ 0)) := by
  simp only [candidateCmp, hft, if_true, eq_self_iff_true]
  by_cases ha : m ≤ a.dailyAmount <;> by_cases hb : m ≤ b.dailyAmount <;>
    simp [ha, hb]

/-- For SOLID foods the comparator orders a non-meeting candidate strictly
after a meeting one. -/
theorem candidateCmp_pos_of_unmet {food : Food} {m : ℚ} {a b : Candidate}
    (hft : food.type = FoodType.SOLID) (hna : ¬ m ≤ a.dailyAmount)
    (hb : m ≤ b.dailyAmount) : candidateCmp food (some m) a b = 1 := by
  simp [candidateCmp, hft, hna, hb]

/-- The boolean comparator relation holds exactly when the comparator is
nonpositive. -/
theorem candLe_eq_true_iff {food : Food} {md : Option ℚ} {a b : Candidate} :
    candLe food md a b = true ↔ candidateCmp food md a b ≤ 0 := by
  simp [candLe]

/-- For SOLID foods the boolean comparator relation is transitive. -/
theorem candLe_trans_solid {food : Food} {m : ℚ}
    (hft : food.type = FoodType.SOLID) :
    ∀ a b c : Candidate, candLe food (some m) a b = true →
      candLe food (some m) b c = true → candLe food (some m) a c = true := by
  intro a b c hab hbc
  rw [candLe_eq_true_iff, candidateCmp_some_nonpos_iff hft] at hab hbc ⊢
  rcases hab with ⟨ha, hnb⟩ | ⟨iab, lab⟩
  · rcases hbc with ⟨hb, _⟩ | ⟨ibc, _⟩
    · exact absurd hb hnb
    · exact Or.inl ⟨ha, fun hcon => hnb (ibc.mpr hcon)⟩
  · rcases hbc with ⟨hb, hnc⟩ | ⟨ibc, lbc⟩
    · exact Or.inl ⟨iab.mpr hb, hnc⟩
    · exact Or.inr ⟨iab.trans ibc, lexCmp_nonpos_trans lab lbc⟩

/-- For SOLID foods the boolean comparator relation is total. -/
theorem candLe_total_solid {food : Food} {m : ℚ}
    (hft : food.type = FoodType.SOLID) :
    ∀ a b : Candidate,
      (candLe food (some m) a b || candLe food (some m) b a) = true := by
  intro a b
  rw [Bool.or_eq_true, candLe_eq_true_iff, candLe_eq_true_iff,
    candidateCmp_some_nonpos_iff hft, candidateCmp_some_nonpos_iff hft]
  by_cases ha : m ≤ a.dailyAmount <;> by_cases hb : m ≤ b.dailyAmount
  · rcases lexCmp_nonpos_total a b with h | h
    · exact Or.inl (Or.inr ⟨iff_of_true ha hb, h⟩)
    · exact Or.inr (Or.inr ⟨iff_of_true hb ha, h⟩)
  · exact Or.inl (Or.inl ⟨ha, hb⟩)
  · exact Or.inr (Or.inl ⟨hb, ha⟩)
  · rcases lexCmp_nonpos_total a b with h | h
    · exact Or.inl (Or.inr ⟨iff_of_false ha hb, h⟩)
    · exact Or.inr (Or.inr ⟨iff_of_false hb ha, h⟩)

/-- C4: for SOLID foods the returned list is sorted by the comparator — the
low-concentration preference first, then mixFoodAmount, dailyAmount,
mixTotalVolume and mixWaterAmount ascending — and whenever some returned
candidate meets the low-concentration constraint
dailyAmount ≥ targetMg / (MAX_SOLID_CONCENTRATION × mgPerUnit), the first
element of the list meets it. -/
theorem C4_ranking_property (P : ℚ) (food : Food) (cfg : ProtocolConfig)
    (hft : food.type = FoodType.SOLID) :
    (findDilutionCandidates P food cfg).Pairwise (fun a b =>
      candLe food (minDailyForLowConcentration P food cfg) a b = true) ∧
    ((∃ c ∈ findDilutionCandidates P food cfg,
        P / (cfg.MAX_SOLID_CONCENTRATION * food.getMgPerUnit) ≤
          c.dailyAmount) →
      ∀ hd, (findDilutionCandidates P food cfg).head? = some hd →
        P / (cfg.MAX_SOLID_CONCENTRATION * food.getMgPerUnit) ≤
          hd.dailyAmount) := by
  have hmd : minDailyForLowConcentration P food cfg =
      some (P / (cfg.MAX_SOLID_CONCENTRATION * food.getMgPerUnit)) := by
    simp [minDailyForLowConcentration, hft]
  have hsorted : (findDilutionCandidates P food cfg).Pairwise (fun a b =>
      candLe food (minDailyForLowConcentration P food cfg) a b = true) := by
    simp only [findDilutionCandidates]
    rw [hmd]
    exact List.sorted_mergeSort (candLe_trans_solid hft)
      (candLe_total_solid hft) _
  refine ⟨hsorted, ?_⟩
  rintro ⟨c, hcmem, hcm⟩ hd hhd
  by_contra hnot
  rcases hl : findDilutionCandidates P food cfg with _ | ⟨h0, t⟩
  · rw [hl] at hhd
    simp at hhd
  · rw [hl] at hhd
    simp only [List.head?_cons, Option.some.injEq] at hhd
    subst hhd
    rw [hl] at hcmem hsorted
    rcases List.mem_cons.mp hcmem with rfl | hct
    · exact hnot hcm
    · have hle := (List.pairwise_cons.mp hsorted).1 c hct
      rw [hmd, candLe_eq_true_iff] at hle
      rw [candidateCmp_pos_of_unmet hft hnot hcm] at hle
      norm_num at hle

/-- Witness for C4 at a concrete input. -/
theorem C4_witness :
    sampleSolidFood.type = FoodType.SOLID ∧
    ((findDilutionCandidates 11 sampleSolidFood tinyConfig).Pairwise
      (fun a b => candLe sampleSolidFood
        (minDailyForLowConcentration 11 sampleSolidFood tinyConfig) a b
        = true) ∧
    ((∃ c ∈ findDilutionCandidates 11 sampleSolidFood tinyConfig,
        11 / (tinyConfig.MAX_SOLID_CONCENTRATION *
          sampleSolidFood.getMgPerUnit) ≤ c.dailyAmount) →
      ∀ hd, (findDilutionCandidates 11 sampleSolidFood tinyConfig).head? =
          some hd →
        11 / (tinyConfig.MAX_SOLID_CONCENTRATION *
          sampleSolidFood.getMgPerUnit) ≤ hd.dailyAmount)) :=
  ⟨rfl, C4_ranking_property 11 sampleSolidFood tinyConfig rfl⟩

/-- Witness for C6 at a concrete input. -/
theorem C6_witness :
    (2 : ℚ) ≠ 0 ∧
    calculateDilutionActualProtein sampleSolidFood 1 2 3 =
      some (1 * sampleSolidFood.getMgPerUnit * (3 / 2)) :=
  ⟨by norm_num,
    (C6_calculateDilutionActualProtein_spec sampleSolidFood 1 2 3).2
      (by norm_num)⟩

/-- C5: whenever the snap total volumes are nonzero (the only cases where
the relative errors are defined), findRoundedMixWaterAmount evaluates the
floor and ceil 0.5 ml snaps of the ideal water amount after display-rounding
the mix and daily amounts, and returns the snap with the smaller relative
protein error exactly when that smaller error is within the tolerance,
returning none otherwise. -/
theorem C5_findRoundedMixWaterAmount_refines (P : ℚ) (food : Food)
    (mixAmount idealWaterAmount dailyAmount protein_tolerance : ℚ)
    (hfl : snapMixTotalVolume food
      (formatAmount mixAmount
        (if food.type = FoodType.SOLID then Unit.g else Unit.ml))
      (floorSnap idealWaterAmount) ≠ 0)
    (hcl : ceilSnap idealWaterAmount ≠ floorSnap idealWaterAmount →
      snapMixTotalVolume food
        (formatAmount mixAmount
          (if food.type = FoodType.SOLID then Unit.g else Unit.ml))
        (ceilSnap idealWaterAmount) ≠ 0) :
    findRoundedMixWaterAmount P food mixAmount idealWaterAmount dailyAmount
      protein_tolerance =
    findRoundedMixWaterAmountSpec P food mixAmount idealWaterAmount
      dailyAmount protein_tolerance := by
  simp only [findRoundedMixWaterAmount, findRoundedMixWaterAmountSpec]
  rw [if_neg hfl]
  by_cases hc : ceilSnap idealWaterAmount = floorSnap idealWaterAmount
  · rw [if_neg (not_not_intro hc), if_pos hc]
    simp
  · rw [if_pos hc, if_neg (hcl hc), if_neg hc]
    by_cases hfc : snapDifference P food
        (formatAmount mixAmount
          (if food.type = FoodType.SOLID then Unit.g else Unit.ml))
        (formatAmount dailyAmount Unit.ml) (floorSnap idealWaterAmount) ≤
        snapDifference P food
        (formatAmount mixAmount
          (if food.type = FoodType.SOLID then Unit.g else Unit.ml))
        (formatAmount dailyAmount Unit.ml) (ceilSnap idealWaterAmount)
    · rw [min_eq_left hfc]
      simp [hfc]
    · have hlt := not_le.mp hfc
      rw [min_eq_right hlt.le, if_neg hlt.ne']
      simp [hfc, not_le.mp hfc]

/-- Witness for C5 at a concrete input. -/
theorem C5_witness :
    snapMixTotalVolume sampleSolidFood
      (formatAmount 1
        (if sampleSolidFood.type = FoodType.SOLID then Unit.g else Unit.ml))
      (floorSnap ((100 : ℚ) / 11)) ≠ 0 ∧
    (ceilSnap ((100 : ℚ) / 11) ≠ floorSnap ((100 : ℚ) / 11) →
      snapMixTotalVolume sampleSolidFood
        (formatAmount 1
          (if sampleSolidFood.type = FoodType.SOLID then Unit.g else Unit.ml))
        (ceilSnap ((100 : ℚ) / 11)) ≠ 0) ∧
    findRoundedMixWaterAmount 11 sampleSolidFood 1 ((100 : ℚ) / 11) 1
      (1 / 20) =
    findRoundedMixWaterAmountSpec 11 sampleSolidFood 1 ((100 : ℚ) / 11) 1
      (1 / 20) := by
  have h9 : floorSnap ((100 : ℚ) / 11) = 9 := by
    norm_num [floorSnap, DILUTION_WATER_STEP_RESOLUTION]
  have hfl : snapMixTotalVolume sampleSolidFood
      (formatAmount 1
        (if sampleSolidFood.type = FoodType.SOLID then Unit.g else Unit.ml))
      (floorSnap ((100 : ℚ) / 11)) ≠ 0 := by
    rw [h9]
    norm_num [snapMixTotalVolume, sampleSolidFood]
  have hcl : ceilSnap ((100 : ℚ) / 11) ≠ floorSnap ((100 : ℚ) / 11) →
      snapMixTotalVolume sampleSolidFood
        (formatAmount 1
          (if sampleSolidFood.type = FoodType.SOLID then Unit.g else Unit.ml))
        (ceilSnap ((100 : ℚ) / 11)) ≠ 0 := by
    intro _
    rw [ceilSnap_100_11]
    norm_num [snapMixTotalVolume, sampleSolidFood]
  exact ⟨hfl, hcl,
    C5_findRoundedMixWaterAmount_refines 11 sampleSolidFood 1
      ((100 : ℚ) / 11) 1 (1 / 20) hfl hcl⟩

/-- C7: generateStepForTarget decides dilution exactly per strategy —
DILUTE_NONE never dilutes and returns the DIRECT step with the neat mass and
the food-type unit; DILUTE_INITIAL dilutes exactly when the neat mass is
strictly below the threshold; DILUTE_ALL always dilutes (returning none or a
DILUTE step); in particular, target 1000 mg with a 100 mg per gram SOLID
food and threshold 0.5 under DILUTE_INITIAL yields a DIRECT step with
dailyAmount 10 and unit g. -/
theorem C7_generateStepForTarget_strategy (P : ℚ) (i : ℕ) (food : Food)
    (diThreshold : ℚ) (cfg : ProtocolConfig) :
    generateStepForTarget P i food FoodAStrategy.DILUTE_NONE diThreshold cfg
      = some
        { stepIndex := i
          targetMg := P
          method := Method.DIRECT
          dailyAmount := P / food.getMgPerUnit
          dailyAmountUnit :=
            if food.type = FoodType.SOLID then Unit.g else Unit.ml
          mixFoodAmount := none
          mixWaterAmount := none
          servings := none
          food := FoodLabel.A } ∧
    (¬ P / food.getMgPerUnit < diThreshold →
      generateStepForTarget P i food FoodAStrategy.DILUTE_INITIAL diThreshold
        cfg = some
        { stepIndex := i
          targetMg := P
          method := Method.DIRECT
          dailyAmount := P / food.getMgPerUnit
          dailyAmountUnit :=
            if food.type = FoodType.SOLID then Unit.g else Unit.ml
          mixFoodAmount := none
          mixWaterAmount := none
          servings := none
          food := FoodLabel.A }) ∧
    (P / food.getMgPerUnit < diThreshold →
      generateStepForTarget P i food FoodAStrategy.DILUTE_INITIAL diThreshold
        cfg = none ∨
      ∃ s, generateStepForTarget P i food FoodAStrategy.DILUTE_INITIAL
        diThreshold cfg = some s ∧ s.method = Method.DILUTE) ∧
    (generateStepForTarget P i food FoodAStrategy.DILUTE_ALL diThreshold cfg
        = none ∨
      ∃ s, generateStepForTarget P i food FoodAStrategy.DILUTE_ALL diThreshold
        cfg = some s ∧ s.method = Method.DILUTE) ∧
    generateStepForTarget 1000 i sampleSolidFood FoodAStrategy.DILUTE_INITIAL
      (1 / 2) cfg = some
        { stepIndex := i
          targetMg := 1000
          method := Method.DIRECT
          dailyAmount := 10
          dailyAmountUnit := Unit.g
          mixFoodAmount := none
          mixWaterAmount := none
          servings := none
          food := FoodLabel.A } := by
  refine ⟨rfl, ?_, ?_, ?_, ?_⟩
  · intro h
    simp only [generateStepForTarget, decide_eq_true_eq]
    rw [if_neg h]
  · intro h
    simp only [generateStepForTarget, decide_eq_true_eq]
    rw [if_pos h]
    rcases hfd : findDilutionCandidates P food cfg with _ | ⟨best, rest⟩
    · exact Or.inl rfl
    · exact Or.inr ⟨_, rfl, rfl⟩
  · simp only [generateStepForTarget]
    rcases hfd : findDilutionCandidates P food cfg with _ | ⟨best, rest⟩
    · exact Or.inl rfl
    · exact Or.inr ⟨_, rfl, rfl⟩
  · have h : ¬ ((1000 : ℚ) / sampleSolidFood.getMgPerUnit < 1 / 2) := by
      norm_num [Food.getMgPerUnit, sampleSolidFood]
    simp only [generateStepForTarget, decide_eq_true_eq]
    rw [if_neg h]
    simp only [Option.some.injEq, Step.mk.injEq]
    norm_num [Food.getMgPerUnit, sampleSolidFood]

/-- Witness for C7 at a concrete input. -/
theorem C7_witness :
    ¬ (1000 : ℚ) / sampleSolidFood.getMgPerUnit < 1 / 2 ∧
    generateStepForTarget 1000 3 sampleSolidFood FoodAStrategy.DILUTE_INITIAL
      (1 / 2) DEFAULT_CONFIG = some
        { stepIndex := 3
          targetMg := 1000
          method := Method.DIRECT
          dailyAmount := 1000 / sampleSolidFood.getMgPerUnit
          dailyAmountUnit :=
            if sampleSolidFood.type = FoodType.SOLID then Unit.g else Unit.ml
          mixFoodAmount := none
          mixWaterAmount := none
          servings := none
          food := FoodLabel.A } := by
  have h : ¬ ((1000 : ℚ) / sampleSolidFood.getMgPerUnit < 1 / 2) := by
    norm_num [Food.getMgPerUnit, sampleSolidFood]
  exact ⟨h, (C7_generateStepForTarget_strategy 1000 3 sampleSolidFood (1 / 2)
    DEFAULT_CONFIG).2.1 h⟩

/-- C8 (evaluation of the code at the failing input): for target 240 mg with
a SOLID food of 170 mg protein per gram under DILUTE_NONE and the default
configuration, generateStepForTarget returns the DIRECT step with the
unrounded neat mass 24/17 g, even though the display-rounded value 1.41 g
delivers protein within PROTEIN_TOLERANCE — the snapping the claim (and the
Direct Amount Snapping tests of the repository itself) require never happens. -/
theorem C8_direct_step_not_snapped :
    ∃ s : Step,
      generateStepForTarget 240 1 snapTestFood FoodAStrategy.DILUTE_NONE
        (1 / 2) DEFAULT_CONFIG = some s ∧
      s.method = Method.DIRECT ∧
      s.dailyAmount = 24 / 17 ∧
      roundDp SOLID_RESOLUTION (24 / 17) = 141 / 100 ∧
      findPercentDifference
        (roundDp SOLID_RESOLUTION (24 / 17) * snapTestFood.getMgPerUnit) 240
        ≤ DEFAULT_CONFIG.PROTEIN_TOLERANCE ∧
      s.dailyAmount ≠ roundDp SOLID_RESOLUTION (24 / 17) := by
  have hround : roundDp SOLID_RESOLUTION ((24 : ℚ) / 17) = 141 / 100 := by
    norm_num [roundDp, SOLID_RESOLUTION]
  refine ⟨_, rfl, rfl, ?_, hround, ?_, ?_⟩
  · norm_num [Food.getMgPerUnit, snapTestFood]
  · rw [hround]
    simp only [findPercentDifference]
    rw [show (141 : ℚ) / 100 * snapTestFood.getMgPerUnit / 240 - 1 = -(1 / 800)
      by norm_num [Food.getMgPerUnit, snapTestFood]]
    rw [abs_neg, abs_of_pos (by norm_num)]
    norm_num [DEFAULT_CONFIG]
  · rw [hround]
    norm_num [Food.getMgPerUnit, snapTestFood]

/-- Every step generateStepForTarget returns records the requested step
index and target, and is labelled Food A. -/
theorem generateStepForTarget_some_fields {P : ℚ} {i : ℕ} {food : Food}
    {strategy : FoodAStrategy} {th : ℚ} {cfg : ProtocolConfig} {s : Step}
    (h : generateStepForTarget P i food strategy th cfg = some s) :
    s.stepIndex = i ∧ s.targetMg = P ∧ s.food = FoodLabel.A := by
  simp only [generateStepForTarget] at h
  split_ifs at h with hd hft
  · rcases hfd : findDilutionCandidates P food cfg with _ | ⟨best, rest⟩
    · rw [hfd] at h
      exact absurd h (by simp)
    · rw [hfd] at h
      obtain rfl : _ = s := Option.some.inj h
      exact ⟨rfl, rfl, rfl⟩
  · obtain rfl : _ = s := Option.some.inj h
    exact ⟨rfl, rfl, rfl⟩
  · obtain rfl : _ = s := Option.some.inj h
    exact ⟨rfl, rfl, rfl⟩

/-- The default-protocol loop produces one step per target, with the step at
position k built for target k with 1-based index i + k + 1, via
generateStepForTarget with the DIRECT fallback on failure. -/
theorem defaultProtocolSteps_spec (food : Food) (cfg : ProtocolConfig)
    (unit : Unit) (th : ℚ) :
    ∀ (targets : List ℚ) (i : ℕ),
      (defaultProtocolSteps food cfg unit th targets i).length =
        targets.length ∧
      ∀ k (hk : k < (defaultProtocolSteps food cfg unit th targets i).length)
        (hk2 : k < targets.length),
        (defaultProtocolSteps food cfg unit th targets i).get ⟨k, hk⟩ =
          (match generateStepForTarget (targets.get ⟨k, hk2⟩) (i + k + 1) food
              FoodAStrategy.DILUTE_INITIAL th cfg with
           | some s => s
           | none =>
             { stepIndex := i + k + 1
               targetMg := targets.get ⟨k, hk2⟩
               method := Method.DIRECT
               dailyAmount := targets.get ⟨k, hk2⟩ / food.getMgPerUnit
               dailyAmountUnit := unit
               mixFoodAmount := none
               mixWaterAmount := none
               servings := none
               food := FoodLabel.A }) := by
  intro targets
  induction targets with
  | nil =>
    intro i
    exact ⟨rfl, fun k hk hk2 => absurd hk2 (by simp)⟩
  | cons t ts ih =>
    intro i
    refine ⟨by simp [defaultProtocolSteps, (ih (i + 1)).1], ?_⟩
    intro k hk hk2
    cases k with
    | zero => rfl
    | succ k =>
      have hk' : k < (defaultProtocolSteps food cfg unit th ts (i + 1)).length
        := by
        have := hk
        simp only [defaultProtocolSteps, List.length_cons] at this
        omega
      have hk2' : k < ts.length := by
        simp only [List.length_cons] at hk2
        omega
      have hrec := (ih (i + 1)).2 k hk' hk2'
      have harith : i + 1 + k + 1 = i + (k + 1) + 1 := by omega
      rw [harith] at hrec
      calc (defaultProtocolSteps food cfg unit th (t :: ts) i).get
            ⟨k + 1, hk⟩ =
          (defaultProtocolSteps food cfg unit th ts (i + 1)).get ⟨k, hk'⟩ :=
            rfl
        _ = _ := hrec

/-- C9: generateDefaultProtocol never drops a step — it returns exactly one
step per STANDARD target, with stepIndex running contiguously from 1, and
whenever generateStepForTarget returns none for a target the protocol
contains the DIRECT fallback step with the neat mass for that target; the
function is total, so no exception is thrown. -/
theorem C9_generateDefaultProtocol_total (food : Food)
    (cfg : ProtocolConfig) :
    (generateDefaultProtocol food cfg).steps.length =
      (DOSING_STRATEGIES DosingStrategy.STANDARD).length ∧
    ∀ k (hk : k < (generateDefaultProtocol food cfg).steps.length)
      (hk2 : k < (DOSING_STRATEGIES DosingStrategy.STANDARD).length),
      ((generateDefaultProtocol food cfg).steps.get ⟨k, hk⟩).stepIndex =
        k + 1 ∧
      ((generateDefaultProtocol food cfg).steps.get ⟨k, hk⟩).targetMg =
        (DOSING_STRATEGIES DosingStrategy.STANDARD).get ⟨k, hk2⟩ ∧
      (generateStepForTarget
          ((DOSING_STRATEGIES DosingStrategy.STANDARD).get ⟨k, hk2⟩) (k + 1)
          food FoodAStrategy.DILUTE_INITIAL
          cfg.DEFAULT_FOOD_A_DILUTION_THRESHOLD cfg = none →
        (generateDefaultProtocol food cfg).steps.get ⟨k, hk⟩ =
          { stepIndex := k + 1
            targetMg := (DOSING_STRATEGIES DosingStrategy.STANDARD).get
              ⟨k, hk2⟩
            method := Method.DIRECT
            dailyAmount := (DOSING_STRATEGIES DosingStrategy.STANDARD).get
              ⟨k, hk2⟩ / food.getMgPerUnit
            dailyAmountUnit :=
              if food.type = FoodType.SOLID then Unit.g else Unit.ml
            mixFoodAmount := none
            mixWaterAmount := none
            servings := none
            food := FoodLabel.A }) := by
  obtain ⟨hlen, hget⟩ := defaultProtocolSteps_spec food cfg
    (if food.type = FoodType.SOLID then Unit.g else Unit.ml)
    cfg.DEFAULT_FOOD_A_DILUTION_THRESHOLD
    (DOSING_STRATEGIES DosingStrategy.STANDARD) 0
  refine ⟨hlen, ?_⟩
  intro k hk hk2
  have hgk := hget k hk hk2
  have harith : 0 + k + 1 = k + 1 := by omega
  rw [harith] at hgk
  rcases hgen : generateStepForTarget
      ((DOSING_STRATEGIES DosingStrategy.STANDARD).get ⟨k, hk2⟩) (k + 1) food
      FoodAStrategy.DILUTE_INITIAL cfg.DEFAULT_FOOD_A_DILUTION_THRESHOLD cfg
      with _ | s
  · rw [hgen] at hgk
    exact ⟨congrArg Step.stepIndex hgk, congrArg Step.targetMg hgk,
      fun _ => hgk⟩
  · rw [hgen] at hgk
    obtain ⟨h1, h2, _⟩ := generateStepForTarget_some_fields hgen
    exact ⟨(congrArg Step.stepIndex hgk).trans h1,
      (congrArg Step.targetMg hgk).trans h2,
      fun hcon => absurd hcon (by simp)⟩

/-- Witness for C9 at a concrete input. -/
theorem C9_witness :
    (generateDefaultProtocol sampleSolidFood tinyConfig).steps.length =
      (DOSING_STRATEGIES DosingStrategy.STANDARD).length ∧
    ∃ hk : 0 < (generateDefaultProtocol sampleSolidFood tinyConfig).steps.length,
      ((generateDefaultProtocol sampleSolidFood tinyConfig).steps.get
        ⟨0, hk⟩).stepIndex = 1 ∧
      ((generateDefaultProtocol sampleSolidFood tinyConfig).steps.get
        ⟨0, hk⟩).targetMg = 1 := by
  have h := C9_generateDefaultProtocol_total sampleSolidFood tinyConfig
  have hk : 0 < (generateDefaultProtocol sampleSolidFood
      tinyConfig).steps.length := by
    rw [h.1]
    norm_num [DOSING_STRATEGIES]
  obtain ⟨h1, h2, _⟩ := h.2 0 hk (by norm_num [DOSING_STRATEGIES])
  exact ⟨h.1, hk, h1, h2⟩

/-- Every step of the default-protocol loop is labelled Food A. -/
theorem defaultProtocolSteps_food_A (food : Food) (cfg : ProtocolConfig)
    (unit : Unit) (th : ℚ) :
    ∀ (targets : List ℚ) (i : ℕ) (s : Step),
      s ∈ defaultProtocolSteps food cfg unit th targets i →
        s.food = FoodLabel.A := by
  intro targets
  induction targets with
  | nil =>
    intro i s h
    simp [defaultProtocolSteps] at h
  | cons t ts ih =>
    intro i s h
    simp only [defaultProtocolSteps, List.mem_cons] at h
    rcases h with rfl | h
    · rcases hgen : generateStepForTarget t (i + 1) food
          FoodAStrategy.DILUTE_INITIAL th cfg with _ | s2
      · rfl
      · exact (generateStepForTarget_some_fields hgen).2.2
    · exact ih (i + 1) s h

/-- C10: every Step generateStepForTarget returns — and hence every step of
generateDefaultProtocol — has its food field set to A, for every input; no
step labelled B can be produced. -/
theorem C10_food_label_always_A :
    (∀ (P : ℚ) (i : ℕ) (food : Food) (strategy : FoodAStrategy) (th : ℚ)
      (cfg : ProtocolConfig) (s : Step),
      generateStepForTarget P i food strategy th cfg = some s →
        s.food = FoodLabel.A) ∧
    (∀ (food : Food) (cfg : ProtocolConfig) (s : Step),
      s ∈ (generateDefaultProtocol food cfg).steps →
        s.food = FoodLabel.A) :=
  ⟨fun _ _ _ _ _ _ _ h => (generateStepForTarget_some_fields h).2.2,
    fun food cfg s h => defaultProtocolSteps_food_A food cfg
      (if food.type = FoodType.SOLID then Unit.g else Unit.ml)
      cfg.DEFAULT_FOOD_A_DILUTION_THRESHOLD
      (DOSING_STRATEGIES DosingStrategy.STANDARD) 0 s h⟩

/-- Witness for C10 at a concrete input. -/
theorem C10_witness :
    generateStepForTarget 5 1 sampleSolidFood FoodAStrategy.DILUTE_NONE 0
      tinyConfig = some
        { stepIndex := 1
          targetMg := 5
          method := Method.DIRECT
          dailyAmount := 5 / sampleSolidFood.getMgPerUnit
          dailyAmountUnit :=
            if sampleSolidFood.type = FoodType.SOLID then Unit.g else Unit.ml
          mixFoodAmount := none
          mixWaterAmount := none
          servings := none
          food := FoodLabel.A } ∧
    ({ stepIndex := 1
       targetMg := 5
       method := Method.DIRECT
       dailyAmount := 5 / sampleSolidFood.getMgPerUnit
       dailyAmountUnit :=
         if sampleSolidFood.type = FoodType.SOLID then Unit.g else Unit.ml
       mixFoodAmount := none
       mixWaterAmount := none
       servings := none
       food := FoodLabel.A } : Step).food = FoodLabel.A :=
  ⟨rfl, C10_food_label_always_A.1 5 1 sampleSolidFood
    FoodAStrategy.DILUTE_NONE 0 tinyConfig _ rfl⟩

end OIT
